import Mathlib

/-!
# Verification of the DIP operation pipeline

A shallow embedding of the image-processing web tool's core: the image data
model, the transform functions of `modules/basic_operations.py`,
`modules/advanced_operations.py`, `modules/morphological_operations.py`,
`modules/segmentation.py`, `modules/restoration.py`,
`modules/color_processing.py` and `modules/frequency_domain.py`, and the
sequential pipeline executor of `app.py` (`process_image`).

Modelling conventions:
* Images are `h × w × c` sample buffers of `uint8` values, stored row-major
  with the channel dimension innermost (OpenCV layout, BGR order).  A 2-D
  single-channel numpy array is represented with `c = 1`.
* External vision-library primitives (OpenCV / numpy calls) whose pixel
  semantics no claim depends on are modelled by the fixed total function
  `cvPrim`, tagged with the name of the library call so distinct calls stay
  distinct; primitives a claim's truth depends on (`cvtColor` BGR↔GRAY,
  `cv2.threshold`) are modelled exactly.
* The numpy global pseudorandom stream (`np.random.*`) is modelled as an
  explicit stream `Rng` of rationals in `[0,1)`, passed to every transform;
  a transform is deterministic in `(image, parameters)` iff its result does
  not depend on this stream.
* Description strings keep every interpolated parameter value but abbreviate
  the long static HTML explanation text of the source.
-/

namespace DIP

/-- An OpenCV image: `h` rows, `w` columns, `c` channels (`c = 1` represents a
2-D single-channel array), samples stored row-major, channel innermost, in
BGR order.  Samples are `uint8` values, carried as `Nat`. -/
structure Img where
  h : Nat
  w : Nat
  c : Nat
  data : List Nat
deriving Repr, DecidableEq

/-- All samples fit in a `uint8`. -/
def Img.valid (img : Img) : Prop := ∀ v ∈ img.data, v ≤ 255

instance (img : Img) : Decidable img.valid := by
  unfold Img.valid; infer_instance

/-- The numpy global pseudorandom stream (`np.random.*`): draw `i` is a
rational in `[0,1)`.  `np.random.normal(0, s, _)` is modelled as `s` times a
standard draw; `np.random.random` as a raw draw. -/
abbrev Rng : Type := Nat → ℚ

/-- External vision-library primitive (OpenCV/numpy) treated as an external
collaborator: a fixed, deterministic, shape-preserving total function,
distinguished by the library call's name and its numeric arguments.  The
exact pixel values are out of the repository's scope and no claim depends
on them. -/
def cvPrim (tag : String) (args : List ℚ) (img : Img) : Img :=
  Img.mk img.h img.w img.c
    (img.data.map (fun v => (v + tag.length + (args.map (fun q => q.num.natAbs + q.den)).sum) % 256))

/-- OpenCV fixed-point BGR→luma conversion:
`y = (R*4899 + G*9617 + B*1868 + 2^13) >> 14` (coefficients of
`cv2.cvtColor(…, COLOR_BGR2GRAY)`). -/
def luma (b g r : Nat) : Nat := (4899 * r + 9617 * g + 1868 * b + 8192) / 16384

/-- Samples of `cv2.cvtColor(…, COLOR_BGR2GRAY)`: each BGR triple collapses
to its luma. -/
def bgr2grayData : List Nat → List Nat
  | b :: g :: r :: rest => luma b g r :: bgr2grayData rest
  | _ => []

/-- Samples of `cv2.cvtColor(…, COLOR_GRAY2BGR)`: each sample is replicated
into the three channels. -/
def gray2bgrData : List Nat → List Nat
  | [] => []
  | v :: rest => v :: v :: v :: gray2bgrData rest

/-- `cv2.cvtColor(img, COLOR_BGR2GRAY)`: 3-channel in, single-channel (2-D)
out. -/
def cvtColorBGR2GRAY (img : Img) : Img :=
  Img.mk img.h img.w 1 (bgr2grayData img.data)

/-- `cv2.cvtColor(img, COLOR_GRAY2BGR)`: single-channel in, 3-channel out. -/
def cvtColorGRAY2BGR (img : Img) : Img :=
  Img.mk img.h img.w 3 (gray2bgrData img.data)

/-- `BasicOperations.grayscale` (basic_operations.py, lines 7-24): convert to
grayscale, then back to 3 channels for consistent display. -/
def grayscale (image : Img) : Img × String :=
  let result := cvtColorBGR2GRAY image
  let result := cvtColorGRAY2BGR result
  (result, "Grayscale Conversion: Y = 0.299*R + 0.587*G + 0.114*B")

/-- `BasicOperations.negative` (basic_operations.py, lines 26-40):
`result = 255 - image`, elementwise on `uint8` samples. -/
def negative (image : Img) : Img × String :=
  (Img.mk image.h image.w image.c (image.data.map (fun v => 255 - v)),
   "Negative Image: g = 255 - f")

/-- One sample of `cv2.threshold`: comparison mode selected by the OpenCV
constant (`THRESH_BINARY = 0`, `THRESH_BINARY_INV = 1`, `THRESH_TRUNC = 2`,
`THRESH_TOZERO = 3`, `THRESH_TOZERO_INV = 4`). -/
def thresholdSample (thr maxv : Int) (ty : Int) (v : Nat) : Nat :=
  if ty = 0 then (if thr < v then maxv.toNat else 0)
  else if ty = 1 then (if thr < v then 0 else maxv.toNat)
  else if ty = 2 then (if thr < v then thr.toNat else v)
  else if ty = 3 then (if thr < v then v else 0)
  else (if thr < v then 0 else v)

/-- `BasicOperations.threshold` (basic_operations.py, lines 42-84): convert
3-channel input to grayscale (otherwise work on a copy), apply
`cv2.threshold`, and convert a 2-D result back to 3 channels.  An OpenCV
threshold-type constant outside the five supported modes raises, hence the
`Except`. -/
def threshold (image : Img) (threshold_value : Int := 127) (max_value : Int := 255)
    (threshold_type : Int := 0) : Except String (Img × String) :=
  if threshold_type < 0 ∨ 4 < threshold_type then
    .error "cv2.error: unsupported threshold type"
  else
    let gray := if image.c = 3 then cvtColorBGR2GRAY image else image
    let result := Img.mk gray.h gray.w gray.c
      (gray.data.map (thresholdSample threshold_value max_value threshold_type))
    let result := if result.c < 3 then cvtColorGRAY2BGR result else result
    .ok (result,
      "Thresholding: threshold value " ++ toString threshold_value ++
      ", max value " ++ toString max_value ++ ", type " ++ toString threshold_type)

theorem negative_negative_data (l : List Nat) (hv : ∀ v ∈ l, v ≤ 255) :
    (l.map (fun v => 255 - v)).map (fun v => 255 - v) = l := by
  induction l with
  | nil => rfl
  | cons a t ih =>
    simp only [List.map_cons, List.cons.injEq]
    constructor
    · have ha : a ≤ 255 := hv a (List.mem_cons_self a t)
      omega
    · exact ih (fun v hv' => hv v (List.mem_cons_of_mem a hv'))

/-- C9: The `negative` transform is an involution: applying it twice to any
image with `uint8`-valid samples returns exactly the original image,
sample-wise. -/
theorem negative_involution (img : Img) (hv : img.valid) :
    (negative (negative img).1).1 = img := by
  cases img with
  | mk h w c data =>
    simp only [negative]
    exact congrArg (Img.mk h w c) (negative_negative_data data hv)

theorem negative_involution_witness :
    (Img.mk 1 1 3 [10, 20, 255]).valid ∧
      (negative (negative (Img.mk 1 1 3 [10, 20, 255])).1).1 = Img.mk 1 1 3 [10, 20, 255] :=
  ⟨by decide, negative_involution (Img.mk 1 1 3 [10, 20, 255]) (by decide)⟩

/-- `BasicOperations.adjust_brightness` (basic_operations.py, lines 86-104):
`cv2.convertScaleAbs(image, alpha=1, beta=beta)`. -/
def adjust_brightness (image : Img) (beta : Int := 50) : Img × String :=
  (cvPrim "cv2.convertScaleAbs" [1, (beta : ℚ)] image,
   "Brightness Adjustment: beta " ++ toString beta)

/-- `BasicOperations.adjust_contrast` (basic_operations.py, lines 106-124):
`cv2.convertScaleAbs(image, alpha=alpha, beta=0)`. -/
def adjust_contrast (image : Img) (alpha : ℚ := 3/2) : Img × String :=
  (cvPrim "cv2.convertScaleAbs" [alpha, 0] image,
   "Contrast Adjustment: alpha " ++ toString alpha)

/-- `BasicOperations.gaussian_blur` (basic_operations.py, lines 126-152),
parametric in the external `cv2.GaussianBlur` primitive: an even kernel size
is incremented to the next odd value before the library call, and the
description reports the adjusted size. -/
def gaussian_blur_core (blurFn : Img → Nat → ℚ → Img) (image : Img)
    (kernel_size : Nat := 5) (sigma_x : ℚ := 0) : Img × String :=
  let kernel_size := if kernel_size % 2 = 0 then kernel_size + 1 else kernel_size
  (blurFn image kernel_size sigma_x,
   "Gaussian Blur: kernel size " ++ toString kernel_size ++ "x" ++ toString kernel_size ++
   ", sigma x " ++ toString sigma_x)

/-- `BasicOperations.gaussian_blur` with the fixed external primitive. -/
def gaussian_blur (image : Img) (kernel_size : Nat := 5) (sigma_x : ℚ := 0) : Img × String :=
  gaussian_blur_core (fun i k s => cvPrim "cv2.GaussianBlur" [(k : ℚ), s] i)
    image kernel_size sigma_x

/-- `BasicOperations.median_blur` (basic_operations.py, lines 154-177),
parametric in the external `cv2.medianBlur` primitive: an even kernel size
is incremented to the next odd value before the library call. -/
def median_blur_core (blurFn : Img → Nat → Img) (image : Img)
    (kernel_size : Nat := 5) : Img × String :=
  let kernel_size := if kernel_size % 2 = 0 then kernel_size + 1 else kernel_size
  (blurFn image kernel_size,
   "Median Blur: kernel size " ++ toString kernel_size ++ "x" ++ toString kernel_size)

/-- `BasicOperations.median_blur` with the fixed external primitive. -/
def median_blur (image : Img) (kernel_size : Nat := 5) : Img × String :=
  median_blur_core (fun i k => cvPrim "cv2.medianBlur" [(k : ℚ)] i) image kernel_size

/-- `BasicOperations.bilateral_filter` (basic_operations.py, lines 179-203). -/
def bilateral_filter (image : Img) (d : Int := 9) (sigma_color : Int := 75)
    (sigma_space : Int := 75) : Img × String :=
  (cvPrim "cv2.bilateralFilter" [(d : ℚ), (sigma_color : ℚ), (sigma_space : ℚ)] image,
   "Bilateral Filter: d " ++ toString d ++ ", sigma color " ++ toString sigma_color ++
   ", sigma space " ++ toString sigma_space)

/-- `BasicOperations.histogram_equalization` (basic_operations.py, lines
205-234): grayscale images go through `cv2.equalizeHist` (re-expanded to 3
channels); color images are converted to YCrCb, the Y channel is equalized
in place, and the result converted back to BGR. -/
def histogram_equalization (image : Img) : Img × String :=
  let result :=
    if image.c = 1 then
      let r := cvPrim "cv2.equalizeHist" [] image
      if r.c < 3 then cvtColorGRAY2BGR r else r
    else
      let ycrcb := cvPrim "cv2.cvtColor BGR2YCrCb" [] image
      let ycrcb := cvPrim "ycrcb[:,:,0] = cv2.equalizeHist(ycrcb[:,:,0])" [] ycrcb
      cvPrim "cv2.cvtColor YCrCb2BGR" [] ycrcb
  (result, "Histogram Equalization")

/-- `BasicOperations.sharpen` (basic_operations.py, lines 236-267),
parametric in the external `cv2.GaussianBlur` and `cv2.addWeighted`
primitives: an even kernel size is incremented to the next odd value, then
unsharp masking `addWeighted(image, 1+strength, blurred, -strength, 0)`. -/
def sharpen_core (blurFn : Img → Nat → ℚ → Img)
    (addWeighted : Img → ℚ → Img → ℚ → ℚ → Img) (image : Img)
    (kernel_size : Nat := 3) (strength : ℚ := 1) : Img × String :=
  let kernel_size := if kernel_size % 2 = 0 then kernel_size + 1 else kernel_size
  let blurred := blurFn image kernel_size 0
  let unsharp_mask := addWeighted image (1 + strength) blurred (-strength) 0
  (unsharp_mask,
   "Unsharp Masking: kernel size " ++ toString kernel_size ++
   ", strength " ++ toString strength)

/-- `BasicOperations.sharpen` with the fixed external primitives. -/
def sharpen (image : Img) (kernel_size : Nat := 3) (strength : ℚ := 1) : Img × String :=
  sharpen_core (fun i k s => cvPrim "cv2.GaussianBlur" [(k : ℚ), s] i)
    (fun i a j b g => cvPrim "cv2.addWeighted" [a, b, g] (cvPrim "pair" [] (Img.mk i.h i.w i.c (i.data ++ j.data))))
    image kernel_size strength

/-- C10: Even kernel sizes are silently rounded up to the next odd integer:
for every image and every even `kernel_size ≥ 2`, `gaussian_blur`,
`median_blur` and `sharpen` each produce output (image and description)
identical to the same call with `kernel_size + 1`, whatever the external
blur/weighting primitives compute; no even-kernel call is rejected. -/
theorem even_kernel_rounds_up (bf : Img → Nat → ℚ → Img) (mf : Img → Nat → Img)
    (sf : Img → Nat → ℚ → Img) (aw : Img → ℚ → Img → ℚ → ℚ → Img)
    (img : Img) (k : Nat) (σ st : ℚ) (hk : k % 2 = 0) (hk2 : 2 ≤ k) :
    gaussian_blur_core bf img k σ = gaussian_blur_core bf img (k + 1) σ ∧
    median_blur_core mf img k = median_blur_core mf img (k + 1) ∧
    sharpen_core sf aw img k st = sharpen_core sf aw img (k + 1) st := by
  have hk1 : (k + 1) % 2 = 1 := by omega
  refine ⟨?_, ?_, ?_⟩ <;>
    simp only [gaussian_blur_core, median_blur_core, sharpen_core, hk, hk1] <;>
    norm_num

theorem even_kernel_rounds_up_witness :
    2 % 2 = 0 ∧ 2 ≤ 2 ∧
      gaussian_blur (Img.mk 1 1 3 [1, 2, 3]) 2 0 = gaussian_blur (Img.mk 1 1 3 [1, 2, 3]) 3 0 := by
  refine ⟨rfl, le_refl 2, ?_⟩
  exact (even_kernel_rounds_up (fun i k s => cvPrim "cv2.GaussianBlur" [(k : ℚ), s] i)
    (fun i k => cvPrim "cv2.medianBlur" [(k : ℚ)] i)
    (fun i k s => cvPrim "cv2.GaussianBlur" [(k : ℚ), s] i)
    (fun i a j b g => cvPrim "cv2.addWeighted" [a, b, g] (cvPrim "pair" [] (Img.mk i.h i.w i.c (i.data ++ j.data))))
    (Img.mk 1 1 3 [1, 2, 3]) 2 0 0 rfl (le_refl 2)).1

/-- `AdvancedOperations.retinex` (advanced_operations.py, lines 7-81):
multi-scale retinex, a float-numeric per-channel kernel modelled as a single
external primitive.  The `sigma_list` parameter keeps its default
`[15, 80, 250]` (list-valued parameters are not transported through the
request decoding in any observed call). -/
def retinex (image : Img) (dynamic : Bool := false) : Img × String :=
  (cvPrim "multi-scale retinex" [if dynamic then 1 else 0] image,
   "Multi-Scale Retinex: sigma values [15, 80, 250], dynamic " ++
   (if dynamic then "Enabled" else "Disabled"))

/-- `AdvancedOperations.clahe` (advanced_operations.py, lines 83-127): color
images are processed in LAB space on the L channel; grayscale images are
processed directly and re-expanded to 3 channels. -/
def clahe (image : Img) (clip_limit : ℚ := 2) (tile_grid_size : Nat := 8) : Img × String :=
  let result :=
    if image.c = 3 then
      let lab := cvPrim "cv2.cvtColor BGR2LAB" [] image
      let merged := cvPrim "clahe.apply L channel; cv2.merge" [clip_limit, (tile_grid_size : ℚ)] lab
      cvPrim "cv2.cvtColor LAB2BGR" [] merged
    else
      let r := cvPrim "clahe.apply" [clip_limit, (tile_grid_size : ℚ)] image
      if r.c < 3 then cvtColorGRAY2BGR r else r
  (result,
   "CLAHE: clip limit " ++ toString clip_limit ++ ", tile grid size " ++
   toString tile_grid_size ++ "x" ++ toString tile_grid_size)

/-- `AdvancedOperations.fourier_transform` (advanced_operations.py, lines
129-179): pad to the optimal DFT size, take the DFT, display the log-scaled
magnitude spectrum re-expanded to 3 channels. -/
def fourier_transform (image : Img) : Img × String :=
  let gray := if image.c = 3 then cvtColorBGR2GRAY image else image
  let padded := cvPrim "cv2.copyMakeBorder to optimal DFT size" [] gray
  let dft := cvPrim "cv2.dft; np.fft.fftshift" [] padded
  let magnitude_spectrum := cvPrim "log magnitude; cv2.normalize" [] dft
  (cvtColorGRAY2BGR magnitude_spectrum, "Fourier Transform (Magnitude Spectrum)")

/-- `AdvancedOperations.frequency_filter` (advanced_operations.py, lines
181-252): computes the masked DFT, the filtered spatial image and a
description — and then falls off the end of the function without a `return`
statement, so the call yields Python `None` rather than an
`(image, description)` pair.  The computed locals are modelled, and the
missing return is the `none` result. -/
def frequency_filter (image : Img) (filter_type : String := "lowpass")
    (cutoff_freq : Nat := 30) : Option (Img × String) :=
  let gray := if image.c = 3 then cvtColorBGR2GRAY image else image
  let padded := cvPrim "cv2.copyMakeBorder to optimal DFT size" [] gray
  let dft_shift := cvPrim "cv2.dft; np.fft.fftshift" [] padded
  let mask :=
    if filter_type.toLower = "lowpass" then
      cvPrim "cv2.circle lowpass mask" [(cutoff_freq : ℚ)] dft_shift
    else
      cvPrim "1 - cv2.circle mask" [(cutoff_freq : ℚ)] dft_shift
  let filtered := cvPrim "idft magnitude; cv2.normalize; crop" [] mask
  let _result := cvtColorGRAY2BGR filtered
  none

/-- `MorphologicalOperations.__get_kernel` (morphological_operations.py,
lines 7-22): a structuring element of the requested shape
(`rect`/`ellipse`/`cross`, anything else falling back to `rect`) and size,
represented by its shape tag and size. -/
def get_kernel (kernel_shape : String) (kernel_size : Nat) : String × Nat :=
  if kernel_shape = "rect" then ("rect", kernel_size)
  else if kernel_shape = "ellipse" then ("ellipse", kernel_size)
  else if kernel_shape = "cross" then ("cross", kernel_size)
  else ("rect", kernel_size)

/-- `MorphologicalOperations.erosion` (morphological_operations.py, lines
24-65). -/
def erosion (image : Img) (kernel_size : Nat := 5) (kernel_shape : String := "rect")
    (iterations : Nat := 1) : Img × String :=
  let kernel := get_kernel kernel_shape kernel_size
  (cvPrim ("cv2.erode " ++ kernel.1) [(kernel.2 : ℚ), (iterations : ℚ)] image,
   "Erosion: kernel shape " ++ kernel_shape ++ ", kernel size " ++ toString kernel_size ++
   "x" ++ toString kernel_size ++ ", iterations " ++ toString iterations)

/-- `MorphologicalOperations.dilation` (morphological_operations.py, lines
67-109). -/
def dilation (image : Img) (kernel_size : Nat := 5) (kernel_shape : String := "rect")
    (iterations : Nat := 1) : Img × String :=
  let kernel := get_kernel kernel_shape kernel_size
  (cvPrim ("cv2.dilate " ++ kernel.1) [(kernel.2 : ℚ), (iterations : ℚ)] image,
   "Dilation: kernel shape " ++ kernel_shape ++ ", kernel size " ++ toString kernel_size ++
   "x" ++ toString kernel_size ++ ", iterations " ++ toString iterations)

/-- `MorphologicalOperations.opening` (morphological_operations.py, lines
111-151). -/
def opening (image : Img) (kernel_size : Nat := 5) (kernel_shape : String := "rect") :
    Img × String :=
  let kernel := get_kernel kernel_shape kernel_size
  (cvPrim ("cv2.morphologyEx MORPH_OPEN " ++ kernel.1) [(kernel.2 : ℚ)] image,
   "Opening: kernel shape " ++ kernel_shape ++ ", kernel size " ++ toString kernel_size ++
   "x" ++ toString kernel_size)

/-- `MorphologicalOperations.closing` (morphological_operations.py, lines
153-193). -/
def closing (image : Img) (kernel_size : Nat := 5) (kernel_shape : String := "rect") :
    Img × String :=
  let kernel := get_kernel kernel_shape kernel_size
  (cvPrim ("cv2.morphologyEx MORPH_CLOSE " ++ kernel.1) [(kernel.2 : ℚ)] image,
   "Closing: kernel shape " ++ kernel_shape ++ ", kernel size " ++ toString kernel_size ++
   "x" ++ toString kernel_size)

/-- `MorphologicalOperations.gradient` (morphological_operations.py, lines
195-232). -/
def gradient (image : Img) (kernel_size : Nat := 5) (kernel_shape : String := "rect") :
    Img × String :=
  let kernel := get_kernel kernel_shape kernel_size
  (cvPrim ("cv2.morphologyEx MORPH_GRADIENT " ++ kernel.1) [(kernel.2 : ℚ)] image,
   "Morphological Gradient: kernel shape " ++ kernel_shape ++ ", kernel size " ++
   toString kernel_size ++ "x" ++ toString kernel_size)

/-- `MorphologicalOperations.top_hat` (morphological_operations.py, lines
234-270). -/
def top_hat (image : Img) (kernel_size : Nat := 9) (kernel_shape : String := "rect") :
    Img × String :=
  let kernel := get_kernel kernel_shape kernel_size
  (cvPrim ("cv2.morphologyEx MORPH_TOPHAT " ++ kernel.1) [(kernel.2 : ℚ)] image,
   "Top Hat Transform: kernel shape " ++ kernel_shape ++ ", kernel size " ++
   toString kernel_size ++ "x" ++ toString kernel_size)

/-- `MorphologicalOperations.black_hat` (morphological_operations.py, lines
272-308). -/
def black_hat (image : Img) (kernel_size : Nat := 9) (kernel_shape : String := "rect") :
    Img × String :=
  let kernel := get_kernel kernel_shape kernel_size
  (cvPrim ("cv2.morphologyEx MORPH_BLACKHAT " ++ kernel.1) [(kernel.2 : ℚ)] image,
   "Black Hat Transform: kernel shape " ++ kernel_shape ++ ", kernel size " ++
   toString kernel_size ++ "x" ++ toString kernel_size)

/-- `SegmentationOperations.canny_edge` (segmentation.py, lines 7-57). -/
def canny_edge (image : Img) (threshold1 : Int := 100) (threshold2 : Int := 200)
    (aperture_size : Nat := 3) : Img × String :=
  let gray := if image.c = 3 then cvtColorBGR2GRAY image else image
  let edges := cvPrim "cv2.Canny" [(threshold1 : ℚ), (threshold2 : ℚ), (aperture_size : ℚ)] gray
  (cvtColorGRAY2BGR edges,
   "Canny Edge Detection: lower threshold " ++ toString threshold1 ++
   ", upper threshold " ++ toString threshold2 ++ ", aperture size " ++ toString aperture_size)

/-- `SegmentationOperations.sobel_edge` (segmentation.py, lines 59-114). -/
def sobel_edge (image : Img) (dx : Nat := 1) (dy : Nat := 1) (ksize : Nat := 3) :
    Img × String :=
  let gray := if image.c = 3 then cvtColorBGR2GRAY image else image
  let sobelx := cvPrim "cv2.Sobel x; cv2.convertScaleAbs" [(dx : ℚ), (ksize : ℚ)] gray
  let sobely := cvPrim "cv2.Sobel y; cv2.convertScaleAbs" [(dy : ℚ), (ksize : ℚ)] gray
  let combined := cvPrim "cv2.addWeighted 0.5 0.5" []
    (cvPrim "pair" [] (Img.mk sobelx.h sobelx.w sobelx.c (sobelx.data ++ sobely.data)))
  (cvtColorGRAY2BGR combined,
   "Sobel Edge Detection: dx " ++ toString dx ++ ", dy " ++ toString dy ++
   ", kernel size " ++ toString ksize)

/-- `SegmentationOperations.watershed` (segmentation.py, lines 116-202):
Otsu threshold, morphology, distance transform, markers, `cv2.watershed`,
then each segment colored with a color drawn from `np.random.randint` —
the output therefore depends on the pseudorandom stream.  The number of
segments is data-dependent; the model draws the first three color
components from the stream. -/
def watershed (r : Rng) (image : Img) : Img × String :=
  let gray := if image.c = 3 then cvtColorBGR2GRAY image else image
  let image := if image.c = 3 then image else cvtColorGRAY2BGR gray
  let thresh := cvPrim "cv2.threshold THRESH_BINARY_INV + THRESH_OTSU" [] gray
  let opening := cvPrim "cv2.morphologyEx MORPH_OPEN 3x3 iter 2" [] thresh
  let sure_bg := cvPrim "cv2.dilate 3x3 iter 3" [] opening
  let sure_fg := cvPrim "cv2.distanceTransform; cv2.threshold 0.7*max; np.uint8" [] sure_bg
  let markers := cvPrim "cv2.connectedComponents + 1; markers[unknown == 255] = 0" [] sure_fg
  let markers := cvPrim "cv2.watershed" [] markers
  let result := cvPrim "segment colors from np.random.randint; boundaries red"
    [r 0, r 1, r 2] (cvPrim "pair" [] (Img.mk image.h image.w image.c (image.data ++ markers.data)))
  (result, "Watershed Segmentation")

/-- `SegmentationOperations.contour_detection` (segmentation.py, lines
204-258). -/
def contour_detection (image : Img) (threshold_min : Int := 127)
    (threshold_max : Int := 255) : Img × String :=
  let gray := if image.c = 3 then cvtColorBGR2GRAY image else image
  let thresh := cvPrim "cv2.threshold THRESH_BINARY" [(threshold_min : ℚ), (threshold_max : ℚ)] gray
  let result0 := if image.c = 3 then image else cvtColorGRAY2BGR image
  let result := cvPrim "cv2.findContours; cv2.drawContours green" []
    (cvPrim "pair" [] (Img.mk result0.h result0.w result0.c (result0.data ++ thresh.data)))
  (result,
   "Contour Detection: threshold min " ++ toString threshold_min ++
   ", threshold max " ++ toString threshold_max)

/-- `SegmentationOperations.orb_keypoints` (segmentation.py, lines 260-306). -/
def orb_keypoints (image : Img) (n_features : Nat := 500) : Img × String :=
  let result := cvPrim "cv2.ORB detect/compute; cv2.drawKeypoints" [(n_features : ℚ)] image
  (result, "ORB Keypoint Detection: maximum features " ++ toString n_features)

/-- Clip a rational to `[0, 255]` and truncate to `uint8`
(`np.clip(result, 0, 255).astype(np.uint8)`; truncation of a clipped
non-negative rational is `num / den`). -/
def clipU8 (q : ℚ) : Nat :=
  if q ≤ 0 then 0 else if 255 ≤ q then 255 else (q.num / (q.den : Int)).toNat

/-- `RestorationOperations.add_degradation` (restoration.py, lines 7-67):
optional Gaussian blur (even kernel sizes incremented), then noise drawn
from `np.random`:
* `gaussian`: per-sample additive noise `noise_param * draw`;
* `salt_pepper`: per-pixel masks over `shape[:2]`, salt draws first
  (`r p`), pepper draws second (`r (h*w + p)`), each firing when the draw is
  below `amount / 2` with `amount = noise_param / 100`; salt sets the whole
  pixel to 255, pepper then sets it to 0;
* `speckle`: per-sample multiplicative noise `v * (intensity * draw)`;
any other noise type adds nothing.  Finally clip to `[0,255]` and cast to
`uint8`.  The output depends on the pseudorandom stream `r`. -/
def add_degradation (r : Rng) (image : Img) (noise_type : String := "gaussian")
    (noise_param : ℚ := 25) (blur_size : Nat := 0) : Img × String :=
  let result0 : List ℚ := image.data.map (fun v => (v : ℚ))
  let blur_size := if 0 < blur_size ∧ blur_size % 2 = 0 then blur_size + 1 else blur_size
  let result1 := if 0 < blur_size then
      (cvPrim "cv2.GaussianBlur float32" [(blur_size : ℚ)]
        (Img.mk image.h image.w image.c image.data)).data.map (fun v => (v : ℚ))
    else result0
  let hw := image.h * image.w
  let result2 :=
    if noise_type = "gaussian" then
      (result1.enum).map (fun p => p.2 + noise_param * r p.1)
    else if noise_type = "salt_pepper" then
      let amount := noise_param / 100
      (result1.enum).map (fun p =>
        let px := p.1 / image.c
        if r (hw + px) < amount / 2 then 0
        else if r px < amount / 2 then 255
        else p.2)
    else if noise_type = "speckle" then
      let intensity := noise_param / 100
      (result1.enum).map (fun p => p.2 + p.2 * (intensity * r p.1))
    else result1
  (Img.mk image.h image.w image.c (result2.map clipU8),
   "Image Degradation: noise type " ++ noise_type ++ ", noise parameter " ++
   toString noise_param ++ ", blur kernel size " ++
   (if 0 < blur_size then toString blur_size else "None"))

/-- `RestorationOperations.wiener_deconvolution` (restoration.py, lines
69-149): grayscale, Gaussian PSF, padded FFTs, Wiener filter, crop,
normalize, re-expand to 3 channels.  Deterministic. -/
def wiener_deconvolution (image : Img) (psf_size : Nat := 5)
    (noise_power : ℚ := 1/100) : Img × String :=
  let gray := if image.c = 3 then cvtColorBGR2GRAY image else image
  let deconvolved := cvPrim "gaussian PSF; padded FFT; wiener filter; ifft"
    [(psf_size : ℚ), noise_power] gray
  let result := cvPrim "crop; cv2.normalize; astype uint8" [] deconvolved
  (cvtColorGRAY2BGR result,
   "Wiener Deconvolution: PSF size " ++ toString psf_size ++ "x" ++ toString psf_size ++
   ", noise power " ++ toString noise_power)

/-- `RestorationOperations.inpainting` (restoration.py, lines 151-213): a
mask of `num_points` random circles (centers from `np.random.randint`), the
damaged image shown in red beside the `cv2.inpaint` result.  The output
depends on the pseudorandom stream through the mask centers; the model
folds the drawn centers into the mask primitive's arguments. -/
def inpainting (r : Rng) (image : Img) (mask_radius : Nat := 20)
    (num_points : Nat := 5) : Img × String :=
  let centers := (List.range num_points).flatMap
    (fun t => [(mask_radius : ℚ) + r (2 * t) * ((image.w : ℚ) - 2 * mask_radius),
               (mask_radius : ℚ) + r (2 * t + 1) * ((image.h : ℚ) - 2 * mask_radius)])
  let mask := cvPrim "np.zeros; cv2.circle per random center"
    ((mask_radius : ℚ) :: centers) (Img.mk image.h image.w 1 (bgr2grayData image.data))
  let damaged := cvPrim "damaged[mask == 255] = red" []
    (cvPrim "pair" [] (Img.mk image.h image.w image.c (image.data ++ mask.data)))
  let result := cvPrim "cv2.inpaint INPAINT_TELEA radius 3" []
    (cvPrim "pair" [] (Img.mk image.h image.w image.c (image.data ++ mask.data)))
  let display := Img.mk image.h (image.w * 2) image.c (damaged.data ++ result.data)
  (display,
   "Image Inpainting: mask radius " ++ toString mask_radius ++
   ", number of damaged areas " ++ toString num_points)

/-- `ColorProcessing.rgb_to_hsv` (color_processing.py, lines 7-26). -/
def rgb_to_hsv (image : Img) : Img × String :=
  (cvPrim "cv2.cvtColor BGR2HSV" [] image, "RGB to HSV Conversion")

/-- `ColorProcessing.rgb_to_lab` (color_processing.py, lines 28-47). -/
def rgb_to_lab (image : Img) : Img × String :=
  (cvPrim "cv2.cvtColor BGR2LAB" [] image, "RGB to LAB Conversion")

/-- `ColorProcessing.rgb_to_ycrcb` (color_processing.py, lines 49-68). -/
def rgb_to_ycrcb (image : Img) : Img × String :=
  (cvPrim "cv2.cvtColor BGR2YCrCb" [] image, "RGB to YCrCb Conversion")

/-- `ColorProcessing.channel_separation` (color_processing.py, lines
70-125): split the image (after an optional color-space conversion) into
its three channel planes and stack them side by side; an unsupported color
space raises `ValueError`.  Deterministic. -/
def channel_separation (image : Img) (color_space : String := "RGB") :
    Except String (Img × String) :=
  if color_space = "RGB" ∨ color_space = "HSV" ∨ color_space = "LAB" ∨
      color_space = "YCrCb" then
    let channels :=
      if color_space = "RGB" then image
      else cvPrim ("cv2.cvtColor BGR2" ++ color_space) [] image
    let result := cvPrim "per-channel planes; np.hstack" []
      (Img.mk image.h (image.w * 3) image.c
        (channels.data ++ channels.data ++ channels.data))
    .ok (result, "Channel Separation (" ++ color_space ++ ")")
  else
    .error ("ValueError: Unsupported color space: " ++ color_space)

/-- `ColorProcessing.color_quantization` (color_processing.py, lines
127-168): K-means clustering of the pixels with
`cv2.KMEANS_RANDOM_CENTERS` — the initial cluster centers are drawn from
OpenCV's process-global RNG, so the output depends on the pseudorandom
stream.  The model feeds the first `k` draws into the clustering
primitive. -/
def color_quantization (r : Rng) (image : Img) (k : Nat := 8) : Img × String :=
  let pixels := cvPrim "image.reshape((-1, 3)).astype(np.float32)" [] image
  let quantized := cvPrim "cv2.kmeans KMEANS_RANDOM_CENTERS; centers[labels]"
    ((k : ℚ) :: (List.range k).map r) pixels
  (Img.mk image.h image.w image.c quantized.data,
   "Color Quantization: colors reduced to " ++ toString k)

/-- `FrequencyDomain.visualize_spectrum` (frequency_domain.py, lines 7-72):
the JET-colored magnitude and phase spectra side by side.  Deterministic. -/
def visualize_spectrum (image : Img) : Img × String :=
  let gray := if image.c = 3 then cvtColorBGR2GRAY image else image
  let dft_shift := cvPrim "cv2.dft; np.fft.fftshift" [] gray
  let magnitude_colored :=
    cvPrim "log magnitude; cv2.normalize; cv2.applyColorMap JET" [] dft_shift
  let phase_colored :=
    cvPrim "cv2.phase; cv2.normalize; cv2.applyColorMap JET" [] dft_shift
  (Img.mk image.h (image.w * 2) 3 (magnitude_colored.data ++ phase_colored.data),
   "Fourier Spectrum Visualization: magnitude and phase")

/-- `FrequencyDomain.bandpass_filter` (frequency_domain.py, lines 74-157):
a ring mask (filled circle at `high_cutoff` minus filled circle at
`low_cutoff`) applied in the frequency domain.  Deterministic. -/
def bandpass_filter (image : Img) (low_cutoff : Nat := 10) (high_cutoff : Nat := 50) :
    Img × String :=
  let gray := if image.c = 3 then cvtColorBGR2GRAY image else image
  let padded := cvPrim "cv2.copyMakeBorder to optimal DFT size" [] gray
  let dft_shift := cvPrim "cv2.dft; np.fft.fftshift" [] padded
  let mask := cvPrim "cv2.circle high_cutoff 1; cv2.circle low_cutoff 0; np.stack"
    [(low_cutoff : ℚ), (high_cutoff : ℚ)] dft_shift
  let filtered := cvPrim "idft magnitude; cv2.normalize; crop" [] mask
  (cvtColorGRAY2BGR filtered,
   "Bandpass Filtering: low cutoff " ++ toString low_cutoff ++
   ", high cutoff " ++ toString high_cutoff)

/-- `FrequencyDomain.notch_filter` (frequency_domain.py, lines 159-261):
notches at the given centers, or at the strongest off-center spectral peak
found by `cv2.minMaxLoc` when no center is given.  Both branches are
deterministic functions of the image and parameters. -/
def notch_filter (image : Img) (notch_x : Option Int := none)
    (notch_y : Option Int := none) (notch_radius : Nat := 10) : Img × String :=
  let gray := if image.c = 3 then cvtColorBGR2GRAY image else image
  let padded := cvPrim "cv2.copyMakeBorder to optimal DFT size" [] gray
  let dft_shift := cvPrim "cv2.dft; np.fft.fftshift" [] padded
  let magnitude := cvPrim "20 * np.log(cv2.magnitude + 1)" [] dft_shift
  let mask :=
    if notch_x.isNone || notch_y.isNone then
      cvPrim "cv2.minMaxLoc peak; cv2.circle notch pair 0; np.stack"
        [(notch_radius : ℚ)] magnitude
    else
      cvPrim "cv2.circle notch pair at given centers 0; np.stack"
        [(notch_radius : ℚ), ((notch_x.getD 0 : Int) : ℚ), ((notch_y.getD 0 : Int) : ℚ)]
        magnitude
  let filtered := cvPrim "idft magnitude; cv2.normalize; crop" [] mask
  (cvtColorGRAY2BGR filtered,
   "Notch Filtering: notch radius " ++ toString notch_radius)

/-- A parameter value of a request's `params` dict (numeric, string or
boolean, per the spec's Parameter Set). -/
inductive PVal where
  | i (v : Int)
  | q (v : ℚ)
  | s (v : String)
  | b (v : Bool)
deriving Repr, DecidableEq

/-- The `params` dict of one requested operation: keyword arguments passed
as `**params`. -/
abbrev ParamMap : Type := List (String × PVal)

/-- Integer keyword argument, with the transform's default. -/
def ParamMap.getI (p : ParamMap) (k : String) (d : Int) : Int :=
  match p.lookup k with
  | some (.i v) => v
  | _ => d

/-- Natural-number keyword argument, with the transform's default. -/
def ParamMap.getNat (p : ParamMap) (k : String) (d : Nat) : Nat :=
  match p.lookup k with
  | some (.i v) => v.toNat
  | _ => d

/-- Rational keyword argument, with the transform's default. -/
def ParamMap.getQ (p : ParamMap) (k : String) (d : ℚ) : ℚ :=
  match p.lookup k with
  | some (.q v) => v
  | some (.i v) => (v : ℚ)
  | _ => d

/-- String keyword argument, with the transform's default. -/
def ParamMap.getS (p : ParamMap) (k : String) (d : String) : String :=
  match p.lookup k with
  | some (.s v) => v
  | _ => d

/-- Boolean keyword argument, with the transform's default. -/
def ParamMap.getB (p : ParamMap) (k : String) (d : Bool) : Bool :=
  match p.lookup k with
  | some (.b v) => v
  | _ => d

/-- Optional integer keyword argument, `none` when absent (a Python `None`
default). -/
def ParamMap.getOptI (p : ParamMap) (k : String) : Option Int :=
  match p.lookup k with
  | some (.i v) => some v
  | _ => none

/-- The public transform methods of `BasicOperations`. -/
def basicMethods : List String :=
  ["grayscale", "negative", "threshold", "adjust_brightness", "adjust_contrast",
   "gaussian_blur", "median_blur", "bilateral_filter", "histogram_equalization", "sharpen"]

/-- The public transform methods of `AdvancedOperations`. -/
def advancedMethods : List String :=
  ["retinex", "clahe", "fourier_transform", "frequency_filter"]

/-- The public transform methods of `MorphologicalOperations`. -/
def morphMethods : List String :=
  ["erosion", "dilation", "opening", "closing", "gradient", "top_hat", "black_hat"]

/-- The public transform methods of `SegmentationOperations`. -/
def segMethods : List String :=
  ["canny_edge", "sobel_edge", "watershed", "contour_detection", "orb_keypoints"]

/-- The transform methods of `RestorationOperations` (restoration.py).  The
module is not imported by `app.py`, so these are not dispatchable, but they
are transforms of the repository. -/
def restorationMethods : List String :=
  ["add_degradation", "wiener_deconvolution", "inpainting"]

/-- The transform methods of `ColorProcessing` (color_processing.py); like
the restoration module, not imported by `app.py` and hence not
dispatchable. -/
def colorMethods : List String :=
  ["rgb_to_hsv", "rgb_to_lab", "rgb_to_ycrcb", "channel_separation",
   "color_quantization"]

/-- The transform methods of `FrequencyDomain` (frequency_domain.py); like
the restoration module, not imported by `app.py` and hence not
dispatchable. -/
def frequencyMethods : List String :=
  ["visualize_spectrum", "bandpass_filter", "notch_filter"]

/-- The registered transform operations: the public methods of the four
handler objects instantiated in `app.py`. -/
def registeredOps : List String :=
  basicMethods ++ advancedMethods ++ morphMethods ++ segMethods

/-- Every transform of the repository: the dispatchable methods of the four
handler classes plus the transforms of the restoration, color-processing
and frequency-domain modules that `app.py` does not import. -/
def allTransformNames : List String :=
  registeredOps ++ restorationMethods ++ colorMethods ++ frequencyMethods

/-- The attributes Python's `dir()` reports on any plain object instance, in
addition to the class's methods (`__class__`, `__init__`, `__doc__`, …). -/
def objectAttrs : List String :=
  ["__class__", "__delattr__", "__dict__", "__dir__", "__doc__", "__eq__",
   "__format__", "__ge__", "__getattribute__", "__gt__", "__hash__", "__init__",
   "__init_subclass__", "__le__", "__lt__", "__module__", "__ne__", "__new__",
   "__reduce__", "__reduce_ex__", "__repr__", "__setattr__", "__sizeof__",
   "__str__", "__subclasshook__", "__weakref__"]

/-- `dir(basic_ops)` in `app.py`: object attributes plus the class's
methods. -/
def dirBasic : List String := objectAttrs ++ basicMethods

/-- `dir(advanced_ops)` in `app.py`. -/
def dirAdvanced : List String := objectAttrs ++ advancedMethods

/-- `dir(morphological_ops)` in `app.py`: includes the name-mangled private
helper `_MorphologicalOperations__get_kernel`. -/
def dirMorph : List String :=
  objectAttrs ++ ["_MorphologicalOperations__get_kernel"] ++ morphMethods

/-- `dir(segmentation_ops)` in `app.py`. -/
def dirSeg : List String := objectAttrs ++ segMethods

/-- Calling a transform method `getattr(module, name)(current_img, **params)`:
keyword arguments are read with the source's defaults; the result is
`.ok (some pair)` for a transform that returns its pair, `.ok none` for
`frequency_filter` (which returns Python `None`), and `.error` when the call
raises. -/
def transformCallFn (name : String) (r : Rng) (img : Img) (p : ParamMap) :
    Except String (Option (Img × String)) :=
  match name with
  | "grayscale" =>
      if img.c = 3 then .ok (some (grayscale img))
      else .error "cv2.error: cvtColor BGR2GRAY expects a 3-channel image"
  | "negative" => .ok (some (negative img))
  | "threshold" =>
      (threshold img (p.getI "threshold_value" 127) (p.getI "max_value" 255)
        (p.getI "threshold_type" 0)).map some
  | "adjust_brightness" => .ok (some (adjust_brightness img (p.getI "beta" 50)))
  | "adjust_contrast" => .ok (some (adjust_contrast img (p.getQ "alpha" (3/2))))
  | "gaussian_blur" =>
      .ok (some (gaussian_blur img (p.getNat "kernel_size" 5) (p.getQ "sigma_x" 0)))
  | "median_blur" => .ok (some (median_blur img (p.getNat "kernel_size" 5)))
  | "bilateral_filter" =>
      .ok (some (bilateral_filter img (p.getI "d" 9) (p.getI "sigma_color" 75)
        (p.getI "sigma_space" 75)))
  | "histogram_equalization" => .ok (some (histogram_equalization img))
  | "sharpen" => .ok (some (sharpen img (p.getNat "kernel_size" 3) (p.getQ "strength" 1)))
  | "retinex" => .ok (some (retinex img (p.getB "dynamic" false)))
  | "clahe" => .ok (some (clahe img (p.getQ "clip_limit" 2) (p.getNat "tile_grid_size" 8)))
  | "fourier_transform" => .ok (some (fourier_transform img))
  | "frequency_filter" =>
      .ok (frequency_filter img (p.getS "filter_type" "lowpass") (p.getNat "cutoff_freq" 30))
  | "erosion" =>
      .ok (some (erosion img (p.getNat "kernel_size" 5) (p.getS "kernel_shape" "rect")
        (p.getNat "iterations" 1)))
  | "dilation" =>
      .ok (some (dilation img (p.getNat "kernel_size" 5) (p.getS "kernel_shape" "rect")
        (p.getNat "iterations" 1)))
  | "opening" =>
      .ok (some (opening img (p.getNat "kernel_size" 5) (p.getS "kernel_shape" "rect")))
  | "closing" =>
      .ok (some (closing img (p.getNat "kernel_size" 5) (p.getS "kernel_shape" "rect")))
  | "gradient" =>
      .ok (some (gradient img (p.getNat "kernel_size" 5) (p.getS "kernel_shape" "rect")))
  | "top_hat" =>
      .ok (some (top_hat img (p.getNat "kernel_size" 9) (p.getS "kernel_shape" "rect")))
  | "black_hat" =>
      .ok (some (black_hat img (p.getNat "kernel_size" 9) (p.getS "kernel_shape" "rect")))
  | "canny_edge" =>
      .ok (some (canny_edge img (p.getI "threshold1" 100) (p.getI "threshold2" 200)
        (p.getNat "aperture_size" 3)))
  | "sobel_edge" =>
      .ok (some (sobel_edge img (p.getNat "dx" 1) (p.getNat "dy" 1) (p.getNat "ksize" 3)))
  | "watershed" => .ok (some (watershed r img))
  | "contour_detection" =>
      .ok (some (contour_detection img (p.getI "threshold_min" 127)
        (p.getI "threshold_max" 255)))
  | "orb_keypoints" => .ok (some (orb_keypoints img (p.getNat "n_features" 500)))
  | "add_degradation" =>
      .ok (some (add_degradation r img (p.getS "noise_type" "gaussian")
        (p.getQ "noise_param" 25) (p.getNat "blur_size" 0)))
  | "wiener_deconvolution" =>
      .ok (some (wiener_deconvolution img (p.getNat "psf_size" 5)
        (p.getQ "noise_power" (1/100))))
  | "inpainting" =>
      .ok (some (inpainting r img (p.getNat "mask_radius" 20) (p.getNat "num_points" 5)))
  | "rgb_to_hsv" => .ok (some (rgb_to_hsv img))
  | "rgb_to_lab" => .ok (some (rgb_to_lab img))
  | "rgb_to_ycrcb" => .ok (some (rgb_to_ycrcb img))
  | "channel_separation" =>
      (channel_separation img (p.getS "color_space" "RGB")).map some
  | "color_quantization" => .ok (some (color_quantization r img (p.getNat "k" 8)))
  | "visualize_spectrum" => .ok (some (visualize_spectrum img))
  | "bandpass_filter" =>
      .ok (some (bandpass_filter img (p.getNat "low_cutoff" 10) (p.getNat "high_cutoff" 50)))
  | "notch_filter" =>
      .ok (some (notch_filter img (p.getOptI "notch_x") (p.getOptI "notch_y")
        (p.getNat "notch_radius" 10)))
  | _ => .error "AttributeError"

/-- Calling a `dir()`-visible attribute that is not a transform method
(`__init__`, `__str__`, the name-mangled private helper, …) with
`(current_img, **params)` raises a `TypeError`; the exact Python message
varies per attribute and is modelled by one representative text. -/
def dunderRaiseMsg : String :=
  "TypeError: attribute of the operations object is not an image transform"

/-- `getattr(obj, name)(current_img, **params)` for one handler object:
transform methods run; any other `dir()`-visible attribute raises. -/
def classCall (methods : List String) (r : Rng) (img : Img) (name : String)
    (p : ParamMap) : Except String (Option (Img × String)) :=
  if name ∈ methods then transformCallFn name r img p else .error dunderRaiseMsg

/-- The dispatch chain of `process_image` (app.py, lines 112-121):
`if op_type in dir(basic_ops): … elif op_type in dir(advanced_ops): …`, and
`none` when no `dir()` contains the name (the `else` branch). -/
def lookupCall (r : Rng) (img : Img) (name : String) (p : ParamMap) :
    Option (Except String (Option (Img × String))) :=
  if name ∈ dirBasic then some (classCall basicMethods r img name p)
  else if name ∈ dirAdvanced then some (classCall advancedMethods r img name p)
  else if name ∈ dirMorph then some (classCall morphMethods r img name p)
  else if name ∈ dirSeg then some (classCall segMethods r img name p)
  else none

/-- Python's message for unpacking `None` into
`processed, description = …` (app.py, line 113). -/
def unpackNoneMsg : String := "cannot unpack non-iterable NoneType object"

/-- One stage of `process_image`: resolve and call the operation, unpack the
pair; an unresolved name yields the 400 `Unknown operation` response, and
any exception the 500 `Error in operation` response (app.py, lines
110-140). -/
def applyOp (r : Rng) (img : Img) (name : String) (p : ParamMap) :
    Except (String × Nat) (Img × String) :=
  match lookupCall r img name p with
  | none => .error ("Unknown operation: " ++ name, 400)
  | some (.error e) => .error ("Error in operation " ++ name ++ ": " ++ e, 500)
  | some (.ok none) => .error ("Error in operation " ++ name ++ ": " ++ unpackNoneMsg, 500)
  | some (.ok (some pd)) => .ok pd

/-- One entry of the `results` list built by `process_image` (app.py, lines
128-134); the base64 transport encoding of the image is an external
collaborator and the image value is kept directly. -/
structure StageResult where
  operation : String
  image : Img
  description : String
  width : Nat
  height : Nat
deriving Repr, DecidableEq

/-- The JSON response of `/process`: either
`{"success": true, "results": […]}` or `({"error": msg}, status)`. -/
inductive Response where
  | success (results : List StageResult)
  | err (message : String) (status : Nat)
deriving Repr, DecidableEq

/-- One requested operation: `{"type": name, "params": {…}}`. -/
abbrev Op : Type := String × ParamMap

/-- The stage loop of `process_image` (app.py, lines 106-141): apply each
operation in sequence, appending a stage result and advancing the working
image; on the first failure return the error response alone, discarding
`results`. -/
def processLoop (r : Rng) : Img → List Op → List StageResult → Response
  | _, [], acc => .success acc.reverse
  | img, (name, p) :: rest, acc =>
    match applyOp r img name p with
    | .error (m, code) => .err m code
    | .ok (processed, description) =>
        processLoop r processed rest
          (StageResult.mk name processed description processed.w processed.h :: acc)

/-- `process_image` (app.py, lines 82-145), from the point where the source
image has been decoded: `current_img = img.copy()` is value-equal to the
image itself, then the stage loop runs with an empty `results` list. -/
def process_image (r : Rng) (img : Img) (operations : List Op) : Response :=
  processLoop r img operations []

/-- The working image after a list of stages when every one of them
succeeds, `none` as soon as one fails. -/
def runStages (r : Rng) : Img → List Op → Option Img
  | img, [] => some img
  | img, (name, p) :: rest =>
    match applyOp r img name p with
    | .error _ => none
    | .ok (processed, _) => runStages r processed rest

/-- A concrete 1×1 3-channel sample image. -/
def img113 : Img := Img.mk 1 1 3 [10, 20, 30]

/-- A pseudorandom stream whose draws are all `0`. -/
def rngZero : Rng := fun _ => 0

/-- A pseudorandom stream whose draws are all `1/2`. -/
def rngHalf : Rng := fun _ => 1/2

theorem processLoop_success_length (r : Rng) :
    ∀ (ops : List Op) (img : Img) (acc : List StageResult) (res : List StageResult),
      processLoop r img ops acc = .success res → res.length = ops.length + acc.length := by
  intro ops
  induction ops with
  | nil =>
    intro img acc res hres
    simp only [processLoop, Response.success.injEq] at hres
    simp [← hres]
  | cons op rest ih =>
    intro img acc res hres
    obtain ⟨name, p⟩ := op
    simp only [processLoop] at hres
    cases happ : applyOp r img name p with
    | error e =>
      obtain ⟨m, code⟩ := e
      rw [happ] at hres
      exact absurd hres (by simp)
    | ok pd =>
      obtain ⟨processed, description⟩ := pd
      rw [happ] at hres
      have := ih processed (StageResult.mk name processed description processed.w processed.h :: acc) res hres
      simp only [List.length_cons] at this
      simp [this, List.length_cons]
      omega

theorem runStages_append (r : Rng) :
    ∀ (pre : List Op) (img img' : Img), runStages r img pre = some img' →
      ∀ acc, ∃ acc', ∀ rest, processLoop r img (pre ++ rest) acc = processLoop r img' rest acc' := by
  intro pre
  induction pre with
  | nil =>
    intro img img' hrun acc
    simp only [runStages, Option.some.injEq] at hrun
    exact ⟨acc, fun rest => by rw [hrun]; rfl⟩
  | cons op rest0 ih =>
    intro img img' hrun acc
    obtain ⟨name, p⟩ := op
    simp only [runStages] at hrun
    cases happ : applyOp r img name p with
    | error e =>
      rw [happ] at hrun
      exact absurd hrun (by simp)
    | ok pd =>
      obtain ⟨processed, description⟩ := pd
      rw [happ] at hrun
      obtain ⟨acc', hacc'⟩ := ih processed img' hrun
        (StageResult.mk name processed description processed.w processed.h :: acc)
      refine ⟨acc', fun rest => ?_⟩
      simpa only [List.cons_append, processLoop, happ] using hacc' rest

/-- C1 (code bug): the registered operation `frequency_filter` does not
return an `(image, description)` pair: the source computes both and falls
off the end of the function, so the call yields `None`, and dispatching it
through `process_image` makes the unpacking raise and the request fail with
the 500 error, for every input image, parameters and random stream. -/
theorem frequency_filter_missing_return (r : Rng) (img : Img) (ft : String)
    (cf : Nat) (p : ParamMap) :
    frequency_filter img ft cf = none ∧
    "frequency_filter" ∈ registeredOps ∧
    process_image r img [("frequency_filter", p)] =
      .err ("Error in operation frequency_filter: " ++ unpackNoneMsg) 500 := by
  refine ⟨rfl, by decide, ?_⟩
  rfl

theorem frequency_filter_missing_return_witness :
    frequency_filter img113 "lowpass" 30 = none ∧
    "frequency_filter" ∈ registeredOps ∧
    process_image rngZero img113 [("frequency_filter", [])] =
      .err ("Error in operation frequency_filter: " ++ unpackNoneMsg) 500 :=
  frequency_filter_missing_return rngZero img113 "lowpass" 30 []

/-- C2 (counterexample): in the pipeline `[negative, frequency_filter]` on a
concrete image, the first stage succeeds, the second fails, and the
response is the bare error — it is not a success with one entry per
operation, and it does not carry the completed `negative` stage's result
(the error response has no results at all). -/
theorem pipeline_partial_results_not_returned_cx :
    applyOp rngZero img113 "negative" [] = .ok (negative img113) ∧
    process_image rngZero img113 [("negative", []), ("frequency_filter", [])] =
      .err ("Error in operation frequency_filter: " ++ unpackNoneMsg) 500 ∧
    ∀ res, process_image rngZero img113 [("negative", []), ("frequency_filter", [])] ≠
      .success res := by
  refine ⟨rfl, rfl, ?_⟩
  intro res hres
  rw [show process_image rngZero img113 [("negative", []), ("frequency_filter", [])] =
    .err ("Error in operation frequency_filter: " ++ unpackNoneMsg) 500 from rfl] at hres
  exact Response.noConfusion hres

/-- C2 (amended): for every pipeline request, either every stage succeeds
and the number of result entries equals the number of requested operations,
or execution stops at the first failing stage and the response is that
stage's error alone — the results completed before the failing stage are
discarded, not returned. -/
theorem pipeline_result_count_or_abort (r : Rng) (img : Img) (ops : List Op) :
    (∃ res, process_image r img ops = .success res ∧ res.length = ops.length) ∨
    (∃ pre name p post img' m code,
      ops = pre ++ (name, p) :: post ∧
      runStages r img pre = some img' ∧
      applyOp r img' name p = .error (m, code) ∧
      process_image r img ops = .err m code) := by
  suffices h : ∀ (ops : List Op) (img : Img) (acc : List StageResult),
      (∃ res, processLoop r img ops acc = .success res ∧
        res.length = ops.length + acc.length) ∨
      (∃ pre name p post img' m code,
        ops = pre ++ (name, p) :: post ∧
        runStages r img pre = some img' ∧
        applyOp r img' name p = .error (m, code) ∧
        processLoop r img ops acc = .err m code) by
    rcases h ops img [] with ⟨res, hres, hlen⟩ | hfail
    · exact Or.inl ⟨res, hres, by simpa using hlen⟩
    · exact Or.inr hfail
  intro ops
  induction ops with
  | nil =>
    intro img acc
    exact Or.inl ⟨acc.reverse, rfl, by simp⟩
  | cons op rest ih =>
    intro img acc
    obtain ⟨name, p⟩ := op
    cases happ : applyOp r img name p with
    | error e =>
      obtain ⟨m, code⟩ := e
      refine Or.inr ⟨[], name, p, rest, img, m, code, rfl, rfl, happ, ?_⟩
      simp [processLoop, happ]
    | ok pd =>
      obtain ⟨processed, description⟩ := pd
      rcases ih processed
          (StageResult.mk name processed description processed.w processed.h :: acc) with
        ⟨res, hres, hlen⟩ | ⟨pre, n2, p2, post, img', m, code, heq, hrun, happ2, hloop⟩
      · refine Or.inl ⟨res, ?_, ?_⟩
        · simpa only [processLoop, happ] using hres
        · simp only [List.length_cons] at hlen ⊢
          omega
      · refine Or.inr ⟨(name, p) :: pre, n2, p2, post, img', m, code, by rw [heq]; rfl, ?_, happ2, ?_⟩
        · simp [runStages, happ, hrun]
        · simpa only [processLoop, happ] using hloop

/-- C3: when the transform at some stage fails, no stage after it is ever
invoked (the response does not depend on the operations after the failing
stage) and the pipeline call fails as a unit: the response is the error
alone, carrying no results from the stages completed before it. -/
theorem pipeline_abort_on_first_failure (r : Rng) (img img' : Img) (pre post : List Op)
    (name : String) (p : ParamMap) (m : String) (code : Nat)
    (hrun : runStages r img pre = some img')
    (happ : applyOp r img' name p = .error (m, code)) :
    process_image r img (pre ++ (name, p) :: post) = .err m code ∧
    process_image r img (pre ++ (name, p) :: post) =
      process_image r img (pre ++ [(name, p)]) := by
  obtain ⟨acc', hacc'⟩ := runStages_append r pre img img' hrun []
  have h1 : process_image r img (pre ++ (name, p) :: post) = .err m code := by
    rw [process_image, hacc' ((name, p) :: post)]
    simp [processLoop, happ]
  have h2 : process_image r img (pre ++ [(name, p)]) = .err m code := by
    rw [process_image, hacc' [(name, p)]]
    simp [processLoop, happ]
  exact ⟨h1, by rw [h1, h2]⟩

theorem pipeline_abort_on_first_failure_witness :
    runStages rngZero img113 [(("negative" : String), ([] : ParamMap))] =
      some (negative img113).1 ∧
    applyOp rngZero (negative img113).1 "frequency_filter" [] =
      .error ("Error in operation frequency_filter: " ++ unpackNoneMsg, 500) ∧
    process_image rngZero img113
        ([("negative", [])] ++ ("frequency_filter", ([] : ParamMap)) :: [("grayscale", [])]) =
      .err ("Error in operation frequency_filter: " ++ unpackNoneMsg) 500 :=
  ⟨rfl, rfl,
    (pipeline_abort_on_first_failure rngZero img113 (negative img113).1
      [("negative", [])] [("grayscale", [])] "frequency_filter" []
      ("Error in operation frequency_filter: " ++ unpackNoneMsg) 500 rfl rfl).1⟩

/-- C4 (counterexample): `__init__` is not a registered transform operation,
yet requesting it does not produce the `Unknown operation` 400 response:
because `__init__ in dir(basic_ops)` holds, the dispatcher invokes the
non-transform attribute, the call raises, and the pipeline surfaces the 500
`Error in operation` (TransformFailure-style) response instead. -/
theorem dunder_dispatch_not_unknown_cx :
    "__init__" ∉ registeredOps ∧
    "__init__" ∈ dirBasic ∧
    process_image rngZero img113 [("__init__", [])] =
      .err ("Error in operation __init__: " ++ dunderRaiseMsg) 500 ∧
    process_image rngZero img113 [("__init__", [])] ≠
      .err ("Unknown operation: __init__") 400 := by
  refine ⟨by decide, by decide, rfl, ?_⟩
  intro h
  rw [show process_image rngZero img113 [("__init__", [])] =
    .err ("Error in operation __init__: " ++ dunderRaiseMsg) 500 from rfl] at h
  exact absurd h (by decide)

/-- C4 (amended): a requested name that no handler object's `dir()` contains
aborts the pipeline at its stage with the `Unknown operation` 400 response;
a non-transform attribute present in some `dir()` (such as `__init__`) is
instead invoked and surfaces a TransformFailure-style 500 error. -/
theorem unknown_operation_abort (r : Rng) (img img' : Img) (pre post : List Op)
    (name : String) (p : ParamMap)
    (hrun : runStages r img pre = some img')
    (hlook : lookupCall r img' name p = none) :
    process_image r img (pre ++ (name, p) :: post) =
      .err ("Unknown operation: " ++ name) 400 := by
  obtain ⟨acc', hacc'⟩ := runStages_append r pre img img' hrun []
  rw [process_image, hacc' ((name, p) :: post)]
  simp [processLoop, applyOp, hlook]

theorem unknown_operation_abort_witness :
    runStages rngZero img113 [] = some img113 ∧
    lookupCall rngZero img113 "swirl_distort" [] = none ∧
    process_image rngZero img113 ([] ++ ("swirl_distort", ([] : ParamMap)) :: []) =
      .err ("Unknown operation: " ++ "swirl_distort") 400 :=
  ⟨rfl, rfl,
    unknown_operation_abort rngZero img113 img113 [] [] "swirl_distort" [] rfl rfl⟩

/-- C5 (counterexample): two pipelines failing at different stage indices
(1 and 2) on the same failing operation produce the very same error
response, whose message contains no digit at all — the numeric index of the
failing stage is not part of the error returned to the caller; only the
operation's name is. -/
theorem error_lacks_stage_index_cx :
    process_image rngZero img113 [("grayscale", []), ("frequency_filter", [])] =
      .err ("Error in operation frequency_filter: " ++ unpackNoneMsg) 500 ∧
    process_image rngZero img113
        [("grayscale", []), ("grayscale", []), ("frequency_filter", [])] =
      .err ("Error in operation frequency_filter: " ++ unpackNoneMsg) 500 ∧
    ∀ ch ∈ ("Error in operation frequency_filter: " ++ unpackNoneMsg).data, ¬ ch.isDigit := by
  exact ⟨rfl, rfl, by decide⟩

/-- Whether a dispatched call raised, and the message Python reports:
either the exception the attribute call itself raised, or the `TypeError`
from unpacking a `None` result. -/
def raisedMsg : Except String (Option (Img × String)) → Option String
  | .error e => some e
  | .ok none => some unpackNoneMsg
  | .ok (some _) => none

/-- C5 (amended): whenever a dispatched call raises during pipeline
execution, the error returned to the caller is the 500 response whose
message is tagged with the failing operation's name and the cause,
`Error in operation {name}: {cause}`; the response carries no stage
index. -/
theorem error_tagged_with_name_only (r : Rng) (img img' : Img) (pre post : List Op)
    (name : String) (p : ParamMap) (res : Except String (Option (Img × String)))
    (cause : String)
    (hrun : runStages r img pre = some img')
    (hlook : lookupCall r img' name p = some res)
    (hraise : raisedMsg res = some cause) :
    process_image r img (pre ++ (name, p) :: post) =
      .err ("Error in operation " ++ name ++ ": " ++ cause) 500 := by
  obtain ⟨acc', hacc'⟩ := runStages_append r pre img img' hrun []
  rw [process_image, hacc' ((name, p) :: post)]
  cases res with
  | error e =>
    simp only [raisedMsg, Option.some.injEq] at hraise
    subst hraise
    simp [processLoop, applyOp, hlook]
  | ok pd =>
    cases pd with
    | none =>
      simp only [raisedMsg, Option.some.injEq] at hraise
      subst hraise
      simp [processLoop, applyOp, hlook]
    | some pair =>
      exact absurd hraise (by simp [raisedMsg])

theorem error_tagged_with_name_only_witness :
    runStages rngZero img113 [] = some img113 ∧
    lookupCall rngZero img113 "frequency_filter" [] = some (.ok none) ∧
    raisedMsg (.ok none) = some unpackNoneMsg ∧
    process_image rngZero img113 ([] ++ ("frequency_filter", ([] : ParamMap)) :: []) =
      .err ("Error in operation " ++ "frequency_filter" ++ ": " ++ unpackNoneMsg) 500 :=
  ⟨rfl, rfl, rfl,
    error_tagged_with_name_only rngZero img113 img113 [] [] "frequency_filter" []
      (.ok none) unpackNoneMsg rfl rfl rfl⟩

/-- C6 (counterexample): `add_degradation` is not a pure function of its
`(image, parameters)` inputs: on the same concrete image with the same
parameters, two invocations drawing different values from the pseudorandom
stream return different outputs. -/
theorem random_transforms_not_pure_cx :
    "add_degradation" ∈ allTransformNames ∧
    add_degradation rngZero img113 "salt_pepper" 50 0 ≠
      add_degradation rngHalf img113 "salt_pepper" 50 0 := by
  refine ⟨by decide, ?_⟩
  simp only [add_degradation, img113, rngZero, rngHalf, List.map_cons, List.map_nil,
    List.enum, List.enumFrom]
  norm_num
  rw [if_neg (by decide), if_neg (by decide)]
  norm_num [clipU8, Rat.num_ofNat, Rat.den_ofNat]
  decide

/-- C6 (amended): every transform of the repository other than `watershed`,
`inpainting`, `add_degradation` and `color_quantization` is a pure,
deterministic function of its `(image, parameters)` inputs: its call does
not depend on the pseudorandom stream, so two invocations on equal images
with equal parameters produce equal output images and equal descriptions.
The four excluded transforms consume random draws: the first three via
`np.random`, and `color_quantization` via `cv2.kmeans` with
`KMEANS_RANDOM_CENTERS`, whose initial cluster centers come from OpenCV's
process-global RNG. -/
theorem non_random_transforms_deterministic (name : String)
    (hmem : name ∈ allTransformNames)
    (hnr : name ∉ ["watershed", "inpainting", "add_degradation", "color_quantization"])
    (r1 r2 : Rng) (img : Img) (p : ParamMap) :
    transformCallFn name r1 img p = transformCallFn name r2 img p := by
  unfold transformCallFn
  split <;> first | rfl | exact absurd (by decide) hnr

theorem non_random_transforms_deterministic_witness :
    "negative" ∈ allTransformNames ∧
    "negative" ∉ ["watershed", "inpainting", "add_degradation", "color_quantization"] ∧
    transformCallFn "negative" rngZero img113 [] =
      transformCallFn "negative" rngHalf img113 [] :=
  ⟨by decide, by decide,
    non_random_transforms_deterministic "negative" (by decide) (by decide)
      rngZero rngHalf img113 []⟩

theorem mem_gray2bgrData {v : Nat} : ∀ {l : List Nat}, v ∈ gray2bgrData l → v ∈ l := by
  intro l
  induction l with
  | nil => intro h; exact absurd h (by simp [gray2bgrData])
  | cons a t ih =>
    intro h
    simp only [gray2bgrData, List.mem_cons] at h
    rcases h with h | h | h | h
    · exact h ▸ List.mem_cons_self a t
    · exact h ▸ List.mem_cons_self a t
    · exact h ▸ List.mem_cons_self a t
    · exact List.mem_cons_of_mem a (ih h)

/-- C8: for every 100×100 3-channel source image, running the pipeline
`[grayscale, threshold(threshold_value=127)]` (default threshold type)
succeeds with two stage results: stage 1 is a 100×100 3-channel image whose
samples are a grayscale plane re-expanded into the three channels, and
stage 2 is a 100×100 3-channel image whose samples take at most two
distinct values (0 and 255). -/
theorem grayscale_threshold_pipeline_shape (r : Rng) (img : Img)
    (hh : img.h = 100) (hw : img.w = 100) (hc : img.c = 3) :
    ∃ s1 d1 s2 d2,
      process_image r img
          [("grayscale", []), ("threshold", [("threshold_value", PVal.i 127)])] =
        .success [StageResult.mk "grayscale" s1 d1 100 100,
                  StageResult.mk "threshold" s2 d2 100 100] ∧
      s1.h = 100 ∧ s1.w = 100 ∧ s1.c = 3 ∧ (∃ g, s1.data = gray2bgrData g) ∧
      s2.h = 100 ∧ s2.w = 100 ∧ s2.c = 3 ∧
      (∀ v ∈ s2.data, v = 0 ∨ v = 255) ∧ s2.data.toFinset.card ≤ 2 := by
  obtain ⟨h0, w0, c0, data⟩ := img
  simp only [Img.h, Img.w, Img.c] at hh hw hc
  subst hh; subst hw; subst hc
  refine ⟨cvtColorGRAY2BGR (cvtColorBGR2GRAY (Img.mk 100 100 3 data)),
    (grayscale (Img.mk 100 100 3 data)).2,
    cvtColorGRAY2BGR (Img.mk 100 100 1
      ((bgr2grayData (gray2bgrData (bgr2grayData data))).map (thresholdSample 127 255 0))),
    "Thresholding: threshold value 127, max value 255, type 0",
    rfl, rfl, rfl, rfl, ⟨bgr2grayData data, rfl⟩, rfl, rfl, rfl, ?_, ?_⟩
  · intro v hv
    have hv' := mem_gray2bgrData hv
    obtain ⟨x, _, hx⟩ := List.mem_map.mp hv'
    rw [← hx]
    simp only [thresholdSample, if_pos rfl]
    by_cases h127 : (127 : Int) < x
    · rw [if_pos h127]; right; rfl
    · rw [if_neg h127]; left; rfl
  · have hsub : (cvtColorGRAY2BGR (Img.mk 100 100 1
        ((bgr2grayData (gray2bgrData (bgr2grayData data))).map
          (thresholdSample 127 255 0)))).data.toFinset ⊆ ({0, 255} : Finset ℕ) := by
      intro v hv
      rw [List.mem_toFinset] at hv
      have hv' := mem_gray2bgrData hv
      obtain ⟨x, _, hx⟩ := List.mem_map.mp hv'
      rw [← hx]
      simp only [thresholdSample, if_pos rfl]
      by_cases h127 : (127 : Int) < x
      · rw [if_pos h127]; simp
      · rw [if_neg h127]; simp
    calc (cvtColorGRAY2BGR (Img.mk 100 100 1
          ((bgr2grayData (gray2bgrData (bgr2grayData data))).map
            (thresholdSample 127 255 0)))).data.toFinset.card
        ≤ ({0, 255} : Finset ℕ).card := Finset.card_le_card hsub
      _ ≤ 2 := by decide

theorem grayscale_threshold_pipeline_shape_witness :
    (Img.mk 100 100 3 (List.replicate 30000 7)).h = 100 ∧
    (Img.mk 100 100 3 (List.replicate 30000 7)).w = 100 ∧
    (Img.mk 100 100 3 (List.replicate 30000 7)).c = 3 ∧
    (∃ s1 d1 s2 d2,
      process_image rngZero (Img.mk 100 100 3 (List.replicate 30000 7))
          [("grayscale", []), ("threshold", [("threshold_value", PVal.i 127)])] =
        .success [StageResult.mk "grayscale" s1 d1 100 100,
                  StageResult.mk "threshold" s2 d2 100 100] ∧
      s1.h = 100 ∧ s1.w = 100 ∧ s1.c = 3 ∧ (∃ g, s1.data = gray2bgrData g) ∧
      s2.h = 100 ∧ s2.w = 100 ∧ s2.c = 3 ∧
      (∀ v ∈ s2.data, v = 0 ∨ v = 255) ∧ s2.data.toFinset.card ≤ 2) :=
  ⟨rfl, rfl, rfl,
    grayscale_threshold_pipeline_shape rngZero
      (Img.mk 100 100 3 (List.replicate 30000 7)) rfl rfl rfl⟩

/-!
## Buffer-write traces

Whether a transform mutates its input cannot be read off a value-level
embedding, so each transform body is additionally translated into its
sequence of numpy/OpenCV buffer events: every statement either *allocates*
a fresh array (library call results, `.copy()`, numpy arithmetic that
rebinds a name) or *writes in place* into an existing buffer (`+=`,
fancy-index assignment, `cv2.circle` on a mask, `cv2.watershed` on its
marker array, …).  Buffers are numbered in allocation order; buffer 0 is
the transform's input image.  The contents written to non-input buffers are
irrelevant to the mutation question and are abstracted to a placeholder,
so the heap after the trace proves exactly which buffers were touched. -/

/-- One buffer event of a transform body: allocate a fresh buffer, or write
in place into buffer `k`.  The string quotes the source statement. -/
inductive WStmt where
  | alloc (src : String)
  | write (k : Nat) (src : String)
deriving Repr, DecidableEq

/-- Placeholder contents for buffers other than the input: their values are
irrelevant to the mutation question. -/
def freshBuf : Img := Img.mk 0 0 0 []

/-- Run a trace over the heap (the list of live buffers, position =
allocation order). -/
def runW : List WStmt → List Img → List Img
  | [], hp => hp
  | .alloc _ :: rest, hp => runW rest (hp ++ [freshBuf])
  | .write k _ :: rest, hp => runW rest (hp.set k freshBuf)

/-- A statement that does not write buffer 0 (the input image). -/
def writeNonzero : WStmt → Bool
  | .write 0 _ => false
  | _ => true

theorem runW_head (stmts : List WStmt) :
    ∀ (hp : List Img), hp ≠ [] → (∀ s ∈ stmts, writeNonzero s = true) →
      (runW stmts hp).head? = hp.head? := by
  induction stmts with
  | nil => intro hp _ _; rfl
  | cons s rest ih =>
    intro hp hne hw
    cases s with
    | alloc src =>
      rw [runW, ih (hp ++ [freshBuf]) (by simp) (fun t ht => hw t (List.mem_cons_of_mem _ ht))]
      cases hp with
      | nil => exact absurd rfl hne
      | cons a t => rfl
    | write k src =>
      have hk : k ≠ 0 := by
        have := hw (.write k src) (List.mem_cons_self _ _)
        intro h0
        rw [h0] at this
        exact absurd this (by simp [writeNonzero])
      rw [runW, ih (hp.set k freshBuf)
        (by cases hp with
            | nil => exact absurd rfl hne
            | cons a t => cases k with
              | zero => exact absurd rfl hk
              | succ n => simp [List.set])
        (fun t ht => hw t (List.mem_cons_of_mem _ ht))]
      cases hp with
      | nil => exact absurd rfl hne
      | cons a t =>
        cases k with
        | zero => exact absurd rfl hk
        | succ n => rfl

/-- A branch configuration for a transform body: channel count
(`3-channel?`), a secondary boolean branch (`dynamic` / `highpass` /
`blur_size > 0`), and two bits selecting the noise-type branch of
`add_degradation`. -/
abbrev Cfg : Type := Bool × Bool × Bool × Bool

/-- `BasicOperations.grayscale`: two `cvtColor` allocations, result is
buffer 2. -/
def grayscale_trace : Cfg → List WStmt × Option Nat := fun _ =>
  ([.alloc "result = cv2.cvtColor(image, COLOR_BGR2GRAY)",
    .alloc "result = cv2.cvtColor(result, COLOR_GRAY2BGR)"], some 2)

/-- `BasicOperations.negative`: `255 - image` allocates. -/
def negative_trace : Cfg → List WStmt × Option Nat := fun _ =>
  ([.alloc "result = 255 - image"], some 1)

/-- `BasicOperations.threshold`: grayscale conversion or `.copy()`, the
threshold result, and the 3-channel re-expansion. -/
def threshold_trace : Cfg → List WStmt × Option Nat := fun cfg =>
  ([.alloc (if cfg.1 then "gray = cv2.cvtColor(image, COLOR_BGR2GRAY)" else "gray = image.copy()"),
    .alloc "ret, result = cv2.threshold(gray, threshold_value, max_value, threshold_type)",
    .alloc "result = cv2.cvtColor(result, COLOR_GRAY2BGR)"], some 3)

/-- `BasicOperations.adjust_brightness`: one `convertScaleAbs` allocation. -/
def adjust_brightness_trace : Cfg → List WStmt × Option Nat := fun _ =>
  ([.alloc "result = cv2.convertScaleAbs(image, alpha=1, beta=beta)"], some 1)

/-- `BasicOperations.adjust_contrast`: one `convertScaleAbs` allocation. -/
def adjust_contrast_trace : Cfg → List WStmt × Option Nat := fun _ =>
  ([.alloc "result = cv2.convertScaleAbs(image, alpha=alpha, beta=0)"], some 1)

/-- `BasicOperations.gaussian_blur`: one library allocation. -/
def gaussian_blur_trace : Cfg → List WStmt × Option Nat := fun _ =>
  ([.alloc "result = cv2.GaussianBlur(image, (kernel_size, kernel_size), sigma_x)"], some 1)

/-- `BasicOperations.median_blur`: one library allocation. -/
def median_blur_trace : Cfg → List WStmt × Option Nat := fun _ =>
  ([.alloc "result = cv2.medianBlur(image, kernel_size)"], some 1)

/-- `BasicOperations.bilateral_filter`: one library allocation. -/
def bilateral_filter_trace : Cfg → List WStmt × Option Nat := fun _ =>
  ([.alloc "result = cv2.bilateralFilter(image, d, sigma_color, sigma_space)"], some 1)

/-- `BasicOperations.histogram_equalization`: the color path allocates the
YCrCb image (buffer 1), the equalized Y plane (buffer 2), writes the Y
channel of buffer 1 in place, and converts back (buffer 3); the grayscale
path allocates the equalized image and its 3-channel expansion. -/
def histogram_equalization_trace : Cfg → List WStmt × Option Nat := fun cfg =>
  if cfg.1 then
    ([.alloc "ycrcb = cv2.cvtColor(image, COLOR_BGR2YCrCb)",
      .alloc "cv2.equalizeHist(ycrcb[:,:,0])",
      .write 1 "ycrcb[:,:,0] = cv2.equalizeHist(ycrcb[:,:,0])",
      .alloc "result = cv2.cvtColor(ycrcb, COLOR_YCrCb2BGR)"], some 3)
  else
    ([.alloc "result = cv2.equalizeHist(image)",
      .alloc "result = cv2.cvtColor(result, COLOR_GRAY2BGR)"], some 2)

/-- `BasicOperations.sharpen`: the blurred copy and the `addWeighted`
result. -/
def sharpen_trace : Cfg → List WStmt × Option Nat := fun _ =>
  ([.alloc "blurred = cv2.GaussianBlur(image, (kernel_size, kernel_size), 0)",
    .alloc "unsharp_mask = cv2.addWeighted(image, 1.0 + strength, blurred, -strength, 0)"], some 2)

/-- One channel iteration of `AdvancedOperations.retinex`, its `retinex`
accumulator allocated at heap position `base`: every `retinex += …` writes
that buffer in place, all other statements rebind to fresh arrays.  The
`range_val = 0` degenerate case skips the final normalization allocation
and writes nothing extra. -/
def retinexChannel (dyn : Bool) (base : Nat) : List WStmt :=
  [WStmt.alloc "retinex = np.zeros_like(ch)"] ++
  (List.range 3).flatMap (fun _ =>
    [WStmt.alloc "blur = cv2.GaussianBlur(ch, (0, 0), sigma)",
     WStmt.alloc "blur = np.where(blur < 0.0001, 0.0001, blur)",
     WStmt.write base "retinex += np.log10(ch + 0.01) - np.log10(blur + 0.01)"]) ++
  [WStmt.alloc "retinex = retinex / len(sigma_list)"] ++
  (if dyn then
    [WStmt.alloc "restoration = np.log10((ch + 0.01) / (np.sum(img_float, axis=2)/3 + 0.01))",
     WStmt.alloc "retinex = retinex * restoration"]
   else []) ++
  [WStmt.alloc "retinex = (retinex - min_val) / range_val"]

/-- `AdvancedOperations.retinex`: the float image, the three split channel
planes, three channel iterations, the merge and the `uint8` cast. -/
def retinex_trace : Cfg → List WStmt × Option Nat := fun cfg =>
  let dyn := cfg.2.1
  let s := 9 + (if dyn then 2 else 0)
  ([.alloc "img_float = np.float32(image) / 255.0",
    .alloc "cv2.split(img_float) channel 0",
    .alloc "cv2.split(img_float) channel 1",
    .alloc "cv2.split(img_float) channel 2"] ++
   retinexChannel dyn 5 ++ retinexChannel dyn (5 + s) ++ retinexChannel dyn (5 + 2 * s) ++
   [.alloc "result = cv2.merge(channels)",
    .alloc "result = np.uint8(result * 255)"],
   some (4 + 3 * s + 2))

/-- `AdvancedOperations.clahe`: the color path splits LAB, equalizes L and
merges; the grayscale path applies CLAHE and re-expands. -/
def clahe_trace : Cfg → List WStmt × Option Nat := fun cfg =>
  if cfg.1 then
    ([.alloc "lab = cv2.cvtColor(image, COLOR_BGR2LAB)",
      .alloc "cv2.split(lab) l", .alloc "cv2.split(lab) a", .alloc "cv2.split(lab) b",
      .alloc "l_clahe = clahe.apply(l)",
      .alloc "merged = cv2.merge([l_clahe, a, b])",
      .alloc "result = cv2.cvtColor(merged, COLOR_LAB2BGR)"], some 7)
  else
    ([.alloc "result = clahe.apply(image)",
      .alloc "result = cv2.cvtColor(result, COLOR_GRAY2BGR)"], some 2)

/-- `AdvancedOperations.fourier_transform`: all statements allocate. -/
def fourier_transform_trace : Cfg → List WStmt × Option Nat := fun cfg =>
  ([.alloc (if cfg.1 then "gray = cv2.cvtColor(image, COLOR_BGR2GRAY)" else "gray = image.copy()"),
    .alloc "padded = cv2.copyMakeBorder(gray, ...)",
    .alloc "dft = cv2.dft(np.float32(padded), flags=DFT_COMPLEX_OUTPUT)",
    .alloc "dft_shift = np.fft.fftshift(dft)",
    .alloc "magnitude_spectrum = 20 * np.log(cv2.magnitude(...) + 1)",
    .alloc "magnitude_spectrum = cv2.normalize(magnitude_spectrum, None, 0, 255, NORM_MINMAX, CV_8U)",
    .alloc "result = cv2.cvtColor(magnitude_spectrum, COLOR_GRAY2BGR)"], some 7)

/-- `AdvancedOperations.frequency_filter`: `cv2.circle` writes the freshly
allocated mask (buffer 5) in place; the high-pass branch rebinds
`mask = 1 - mask` to a fresh buffer; the function has no `return`, so no
buffer is returned. -/
def frequency_filter_trace : Cfg → List WStmt × Option Nat := fun cfg =>
  (([.alloc (if cfg.1 then "gray = cv2.cvtColor(image, COLOR_BGR2GRAY)" else "gray = image.copy()"),
     .alloc "padded = cv2.copyMakeBorder(gray, ...)",
     .alloc "dft = cv2.dft(np.float32(padded), flags=DFT_COMPLEX_OUTPUT)",
     .alloc "dft_shift = np.fft.fftshift(dft)",
     .alloc "mask = np.zeros((rows, cols), np.uint8)",
     .write 5 "cv2.circle(mask, (ccol, crow), cutoff_freq, 1, -1)"] ++
    (if cfg.2.1 then [WStmt.alloc "mask = 1 - mask"] else []) ++
    [.alloc "mask = np.stack([mask, mask], axis=2)",
     .alloc "filtered_dft = dft_shift * mask",
     .alloc "filtered_shift = np.fft.ifftshift(filtered_dft)",
     .alloc "filtered_img = cv2.idft(filtered_shift); cv2.magnitude",
     .alloc "filtered_img = cv2.normalize(filtered_img, None, 0, 255, NORM_MINMAX, CV_8U)",
     .alloc "result = cv2.cvtColor(filtered_img, COLOR_GRAY2BGR)"]),
   none)

/-- A morphological operation: the structuring element and the library
result, both fresh. -/
def morph_trace (call : String) : Cfg → List WStmt × Option Nat := fun _ =>
  ([.alloc "kernel = cv2.getStructuringElement(shape, (kernel_size, kernel_size))",
    .alloc call], some 2)

/-- `SegmentationOperations.canny_edge`. -/
def canny_edge_trace : Cfg → List WStmt × Option Nat := fun cfg =>
  ([.alloc (if cfg.1 then "gray = cv2.cvtColor(image, COLOR_BGR2GRAY)" else "gray = image.copy()"),
    .alloc "edges = cv2.Canny(gray, threshold1, threshold2, apertureSize=aperture_size)",
    .alloc "result = cv2.cvtColor(edges, COLOR_GRAY2BGR)"], some 3)

/-- `SegmentationOperations.sobel_edge`. -/
def sobel_edge_trace : Cfg → List WStmt × Option Nat := fun cfg =>
  ([.alloc (if cfg.1 then "gray = cv2.cvtColor(image, COLOR_BGR2GRAY)" else "gray = image.copy()"),
    .alloc "sobelx = cv2.Sobel(gray, CV_64F, dx, 0, ksize=ksize)",
    .alloc "sobely = cv2.Sobel(gray, CV_64F, 0, dy, ksize=ksize)",
    .alloc "abs_sobelx = cv2.convertScaleAbs(sobelx)",
    .alloc "abs_sobely = cv2.convertScaleAbs(sobely)",
    .alloc "sobel_combined = cv2.addWeighted(abs_sobelx, 0.5, abs_sobely, 0.5, 0)",
    .alloc "result = cv2.cvtColor(sobel_combined, COLOR_GRAY2BGR)"], some 7)

/-- `SegmentationOperations.watershed`: `markers[unknown == 255] = 0` and
`cv2.watershed(image, markers)` write the marker buffer in place; the
colored-segments loop and the boundary marking write the `result` copy;
the input image buffer is only read. -/
def watershed_trace : Cfg → List WStmt × Option Nat := fun cfg =>
  let b := if cfg.1 then 1 else 2
  ((if cfg.1 then [WStmt.alloc "gray = cv2.cvtColor(image, COLOR_BGR2GRAY)"]
    else [WStmt.alloc "gray = image.copy()",
          WStmt.alloc "gray_3ch = cv2.cvtColor(gray, COLOR_GRAY2BGR); image = gray_3ch"]) ++
   [.alloc "ret, thresh = cv2.threshold(gray, 0, 255, THRESH_BINARY_INV + THRESH_OTSU)",
    .alloc "kernel = np.ones((3, 3), np.uint8)",
    .alloc "opening = cv2.morphologyEx(thresh, MORPH_OPEN, kernel, iterations=2)",
    .alloc "sure_bg = cv2.dilate(opening, kernel, iterations=3)",
    .alloc "dist_transform = cv2.distanceTransform(opening, DIST_L2, 5)",
    .alloc "ret, sure_fg = cv2.threshold(dist_transform, 0.7 * dist_transform.max(), 255, 0)",
    .alloc "sure_fg = np.uint8(sure_fg)",
    .alloc "unknown = cv2.subtract(sure_bg, sure_fg)",
    .alloc "ret, markers = cv2.connectedComponents(sure_fg)",
    .alloc "markers = markers + 1",
    .write (b + 10) "markers[unknown == 255] = 0",
    .write (b + 10) "markers = cv2.watershed(image, markers)",
    .alloc "result = image.copy()",
    .write (b + 11) "result[markers == i] = colors[i]  (segment loop)",
    .write (b + 11) "result[markers == -1] = [0, 0, 255]"], some (b + 11))

/-- `SegmentationOperations.contour_detection`: `cv2.drawContours` writes
the result copy in place. -/
def contour_detection_trace : Cfg → List WStmt × Option Nat := fun cfg =>
  ([.alloc (if cfg.1 then "gray = cv2.cvtColor(image, COLOR_BGR2GRAY)" else "gray = image.copy()"),
    .alloc "ret, thresh = cv2.threshold(gray, threshold_min, threshold_max, THRESH_BINARY)",
    .alloc (if cfg.1 then "result = image.copy()" else "result = cv2.cvtColor(image, COLOR_GRAY2BGR)"),
    .write 3 "cv2.drawContours(result, contours, -1, (0, 255, 0), 2)"], some 3)

/-- `SegmentationOperations.orb_keypoints`: `cv2.drawKeypoints` with a
`None` destination allocates its result. -/
def orb_keypoints_trace : Cfg → List WStmt × Option Nat := fun _ =>
  ([.alloc "result = cv2.drawKeypoints(image, keypoints, None, color=(0,255,0), flags=...)"], some 1)

/-- `RestorationOperations.add_degradation`: the float copy is allocated,
the optional blur rebinds it, the noise branches write it in place
(`result += noise`, `result[salt_mask] = 255`, `result[pepper_mask] = 0`,
`result += result * noise`), and the clip-and-cast allocates the final
buffer.  `cfg.2.1` is `blur_size > 0`; `(cfg.2.2.1, cfg.2.2.2)` selects the
noise type (gaussian / salt-pepper / speckle / other). -/
def add_degradation_trace : Cfg → List WStmt × Option Nat := fun cfg =>
  let blurPos := cfg.2.1
  let ri := if blurPos then 2 else 1
  let noise :=
    if cfg.2.2.1 then
      (if cfg.2.2.2 then ([], 0) else
        ([WStmt.alloc "noise = np.random.normal(0, intensity, result.shape)",
          WStmt.write ri "result += result * noise"], 1))
    else
      (if cfg.2.2.2 then
        ([WStmt.alloc "salt_mask = np.random.random(result.shape[:2]) < amount / 2",
          WStmt.write ri "result[salt_mask] = 255",
          WStmt.alloc "pepper_mask = np.random.random(result.shape[:2]) < amount / 2",
          WStmt.write ri "result[pepper_mask] = 0"], 2)
       else
        ([WStmt.alloc "noise = np.random.normal(mean, sigma, result.shape)",
          WStmt.write ri "result += noise"], 1))
  (([WStmt.alloc "result = image.copy().astype(np.float32)"] ++
    (if blurPos then [WStmt.alloc "result = cv2.GaussianBlur(result, (blur_size, blur_size), 0)"] else []) ++
    noise.1 ++
    [WStmt.alloc "result = np.clip(result, 0, 255).astype(np.uint8)"]),
   some (ri + noise.2 + 1))

/-- `RestorationOperations.wiener_deconvolution`: `psf /= psf.sum()` writes
the PSF buffer in place; slicing (`result[psf_size:-psf_size, …]`) is a
view and neither allocates nor writes. -/
def wiener_deconvolution_trace : Cfg → List WStmt × Option Nat := fun cfg =>
  ([.alloc (if cfg.1 then "gray = cv2.cvtColor(image, COLOR_BGR2GRAY)" else "gray = image.copy()"),
    .alloc "psf = cv2.getGaussianKernel(psf_size, 0)",
    .alloc "psf = psf @ psf.T",
    .write 3 "psf /= psf.sum()",
    .alloc "padded_gray = np.pad(gray, ..., reflect)",
    .alloc "padded_psf = np.pad(psf, ..., constant)",
    .alloc "padded_psf = np.roll(padded_psf, ...)",
    .alloc "gray_fft = np.fft.fft2(padded_gray)",
    .alloc "psf_fft = np.fft.fft2(padded_psf)",
    .alloc "deconvolved = np.conj(psf_fft) / (np.abs(psf_fft)**2 + noise_power)",
    .alloc "deconvolved = gray_fft * deconvolved",
    .alloc "result = np.abs(np.fft.ifft2(deconvolved))",
    .alloc "result = cv2.normalize(result, None, 0, 255, NORM_MINMAX).astype(np.uint8)",
    .alloc "result_3ch = cv2.cvtColor(result, COLOR_GRAY2BGR)"], some 13)

/-- `RestorationOperations.inpainting`: the five `cv2.circle` calls write
the mask (buffer 2), the red marking writes the `damaged` copy (buffer 3),
`cv2.inpaint` and `np.hstack` allocate; the input is only read. -/
def inpainting_trace : Cfg → List WStmt × Option Nat := fun _ =>
  (([WStmt.alloc "result = image.copy()",
     WStmt.alloc "mask = np.zeros(image.shape[:2], dtype=np.uint8)"] ++
    List.replicate 5 (WStmt.write 2 "cv2.circle(mask, (x, y), mask_radius, 255, -1)") ++
    [WStmt.alloc "damaged = result.copy()",
     WStmt.write 3 "damaged[mask == 255] = [0, 0, 255]",
     WStmt.alloc "result = cv2.inpaint(result, mask, 3, INPAINT_TELEA)",
     WStmt.alloc "display = np.hstack([damaged, result])"]), some 5)

/-- Every transform of the repository paired with its buffer-write trace. -/
def allTraces : List (String × (Cfg → List WStmt × Option Nat)) :=
  [("grayscale", grayscale_trace),
   ("negative", negative_trace),
   ("threshold", threshold_trace),
   ("adjust_brightness", adjust_brightness_trace),
   ("adjust_contrast", adjust_contrast_trace),
   ("gaussian_blur", gaussian_blur_trace),
   ("median_blur", median_blur_trace),
   ("bilateral_filter", bilateral_filter_trace),
   ("histogram_equalization", histogram_equalization_trace),
   ("sharpen", sharpen_trace),
   ("retinex", retinex_trace),
   ("clahe", clahe_trace),
   ("fourier_transform", fourier_transform_trace),
   ("frequency_filter", frequency_filter_trace),
   ("erosion", morph_trace "result = cv2.erode(image, kernel, iterations=iterations)"),
   ("dilation", morph_trace "result = cv2.dilate(image, kernel, iterations=iterations)"),
   ("opening", morph_trace "result = cv2.morphologyEx(image, MORPH_OPEN, kernel)"),
   ("closing", morph_trace "result = cv2.morphologyEx(image, MORPH_CLOSE, kernel)"),
   ("gradient", morph_trace "result = cv2.morphologyEx(image, MORPH_GRADIENT, kernel)"),
   ("top_hat", morph_trace "result = cv2.morphologyEx(image, MORPH_TOPHAT, kernel)"),
   ("black_hat", morph_trace "result = cv2.morphologyEx(image, MORPH_BLACKHAT, kernel)"),
   ("canny_edge", canny_edge_trace),
   ("sobel_edge", sobel_edge_trace),
   ("watershed", watershed_trace),
   ("contour_detection", contour_detection_trace),
   ("orb_keypoints", orb_keypoints_trace),
   ("add_degradation", add_degradation_trace),
   ("wiener_deconvolution", wiener_deconvolution_trace),
   ("inpainting", inpainting_trace)]

/-- A trace never writes the input buffer, and when it returns a buffer,
that buffer is not the input. -/
def traceOK (tr : Cfg → List WStmt × Option Nat) : Prop :=
  ∀ cfg : Cfg, ((tr cfg).1.all writeNonzero = true) ∧ (tr cfg).2.getD 1 ≠ 0

instance (tr : Cfg → List WStmt × Option Nat) : Decidable (traceOK tr) := by
  unfold traceOK; infer_instance

theorem allTracesOK : ∀ e ∈ allTraces, traceOK e.2 := by decide

/-- C7: no transform mutates its input image: running any transform's
buffer trace, in any branch configuration, leaves buffer 0 — the input
image — holding exactly its original samples; and every transform that
returns an image returns a freshly allocated buffer distinct from the
input, so each pipeline stage produces a new image value rather than
modifying the working image in place. -/
theorem transforms_do_not_mutate_input (img : Img) (name : String)
    (tr : Cfg → List WStmt × Option Nat) (cfg : Cfg)
    (hmem : (name, tr) ∈ allTraces) :
    (runW (tr cfg).1 [img]).head? = some img ∧
    (∀ k, (tr cfg).2 = some k → k ≠ 0) := by
  obtain ⟨hall, hret⟩ := allTracesOK (name, tr) hmem cfg
  constructor
  · rw [runW_head (tr cfg).1 [img] (by simp) (fun s hs => List.all_eq_true.mp hall s hs)]
    rfl
  · intro k hk
    rw [hk] at hret
    simpa using hret

theorem transforms_do_not_mutate_input_witness :
    ("grayscale", grayscale_trace) ∈ allTraces ∧
    ((runW (grayscale_trace (false, false, false, false)).1 [img113]).head? = some img113 ∧
     (∀ k, (grayscale_trace (false, false, false, false)).2 = some k → k ≠ 0)) :=
  ⟨by unfold allTraces; exact List.mem_cons_self _ _,
   transforms_do_not_mutate_input img113 "grayscale" grayscale_trace
     (false, false, false, false) (by unfold allTraces; exact List.mem_cons_self _ _)⟩

end DIP
